import Mathlib

/-!
Verification development for the AI B2B Proposal Generator backend.

The definitions below are a shallow embedding of the backend pipeline:
the output verifier `parseAndValidate` and the retry controller
`generateProposal` (src/backend/src/app.js, service revision), the impact
calculator (src/backend/src/services/impactService.js), and the provider
retry/cooldown layer (src/unnamed/part_006, providers/aiProvider.js).
JavaScript numbers are modelled as rationals; `Math.round (x*100)/100`
becomes `round2`.
-/

/-- JavaScript `Math.round`: rounds half toward positive infinity,
i.e. `Math.round x = Math.floor (x + 0.5)`. -/
def jsRound (q : ℚ) : ℤ :=
  ⌊q + 1/2⌋

/-- Two-decimal rounding as written in the source:
`Math.round (x * 100) / 100`. -/
def round2 (q : ℚ) : ℚ :=
  (jsRound (q * 100) : ℚ) / 100

/-- JavaScript `Math.abs`. -/
def jsAbs (q : ℚ) : ℚ :=
  if q < 0 then -q else q

/-- JavaScript `Math.max` on two numbers. -/
def jsMax (a b : ℚ) : ℚ :=
  if a < b then b else a

/-- Catalog product document (models/Product.js).  The impact metrics can
be absent on a raw document, which the impact service defaults to 0 via
`|| 0`; they are therefore modelled as `Option ℚ`. -/
structure Product where
  product_id : String
  name : String
  category : String
  unit_price : ℚ
  plastic_saved_per_unit : Option ℚ
  carbon_avoided_per_unit : Option ℚ
deriving Repr, DecidableEq

/-- One line item of the model's structured output, after the strict Zod
schema check (`AIProductSchema`): `quantity` is a positive integer,
prices and costs are numbers. -/
structure AIItem where
  product_id : String
  name : String
  quantity : ℤ
  unit_price : ℚ
  total_cost : ℚ
deriving Repr, DecidableEq

/-- The model's structured output after the strict Zod schema check
(`AIResponseSchema`). -/
structure AIData where
  proposal_summary : String
  total_budget_limit : ℚ
  allocated_budget : ℚ
  products : List AIItem
  impact_summary : String
  confidence_score : ℚ
deriving Repr, DecidableEq

/-- Lookup in the `productMap` built from all catalog products
(`productMap.get (item.product_id)`). -/
def findProduct (catalog : List Product) (id : String) : Option Product :=
  catalog.find? (fun p => p.product_id = id)

/-- Rejection reason of step 8a. -/
def notFoundMsg (id : String) : String :=
  "Product not found in DB: " ++ id

/-- Rejection reason of step 8b. -/
def nameMismatchMsg (item : AIItem) (db : Product) : String :=
  "Name mismatch for " ++ item.product_id ++ ": AI said \"" ++ item.name ++
    "\", DB has \"" ++ db.name ++ "\""

/-- Rejection reason of step 8c. -/
def priceMismatchMsg (item : AIItem) (db : Product) : String :=
  "Price mismatch for " ++ item.name ++ ": AI said " ++ toString item.unit_price ++
    ", DB has " ++ toString db.unit_price

/-- Server-recomputed line total of step 8d:
`Math.round (item.quantity * item.unit_price * 100) / 100`. -/
def expectedCost (item : AIItem) : ℚ :=
  round2 ((item.quantity : ℚ) * item.unit_price)

/-- Rejection reason of step 8d. -/
def costMismatchMsg (item : AIItem) : String :=
  "Cost mismatch for " ++ item.name ++ ": AI said " ++ toString item.total_cost ++
    ", expected " ++ toString (expectedCost item)

/-- Body of the per-item business validation loop, steps 8a-8d of
`parseAndValidate` (app.js service revision): the product must exist,
name and unit price must match the catalog exactly, and the claimed
line total must be within 0.01 of the recomputed
`quantity × unit_price`.  The item is never mutated. -/
def checkItem (catalog : List Product) (item : AIItem) : Except String Unit :=
  match findProduct catalog item.product_id with
  | none => .error (notFoundMsg item.product_id)
  | some db =>
    if item.name ≠ db.name then .error (nameMismatchMsg item db)
    else if item.unit_price ≠ db.unit_price then .error (priceMismatchMsg item db)
    else if jsAbs (item.total_cost - expectedCost item) > 1/100 then
      .error (costMismatchMsg item)
    else .ok ()

/-- The `for (const item of aiData.products)` validation loop, which
short-circuits on the first failing item. -/
def checkItems (catalog : List Product) : List AIItem → Except String Unit
  | [] => .ok ()
  | item :: rest =>
    match checkItem catalog item with
    | .error e => .error e
    | .ok _ => checkItems catalog rest

/-- Sum of the claimed `total_cost` fields
(`aiData.products.reduce ((sum, p) => sum + p.total_cost, 0)`). -/
def sumTotalCost (items : List AIItem) : ℚ :=
  (items.map (fun it => it.total_cost)).sum

/-- Step 8e recomputed allocation:
`Math.round (sum * 100) / 100` over the claimed line totals. -/
def computedAllocated (d : AIData) : ℚ :=
  round2 (sumTotalCost d.products)

/-- Step 8e tolerance: `Math.max (1, aiData.products.length)`. -/
def allocatedTolerance (d : AIData) : ℚ :=
  jsMax 1 (d.products.length : ℚ)

/-- Rejection reason of step 8e. -/
def allocMismatchMsg (d : AIData) : String :=
  "Allocated budget mismatch: AI said ₹" ++ toString d.allocated_budget ++
    ", computed ₹" ++ toString (computedAllocated d)

/-- Rejection reason of step 8f. -/
def limitMismatchMsg (d : AIData) (budget : ℚ) : String :=
  "Budget limit mismatch: AI said ₹" ++ toString d.total_budget_limit ++
    ", request had ₹" ++ toString budget

/-- Rejection reason of step 9. -/
def budgetExceededMsg (alloc budget : ℚ) : String :=
  "Budget exceeded: allocated ₹" ++ toString alloc ++ " exceeds limit ₹" ++ toString budget

/-- Business-validation part of `parseAndValidate` (steps 8-9 of the
app.js service revision), applied to the schema-checked model output.
It either returns the data unchanged or throws a `ValidationError`
with a precise reason; it never mutates the candidate. -/
def parseAndValidate (catalog : List Product) (budget : ℚ) (aiData : AIData) :
    Except String AIData :=
  match checkItems catalog aiData.products with
  | .error e => .error e
  | .ok _ =>
    if jsAbs (aiData.allocated_budget - computedAllocated aiData) > allocatedTolerance aiData then
      .error (allocMismatchMsg aiData)
    else if aiData.total_budget_limit ≠ budget then
      .error (limitMismatchMsg aiData budget)
    else if computedAllocated aiData > budget then
      .error (budgetExceededMsg (computedAllocated aiData) budget)
    else .ok aiData

/-- Step 11 recomputation of the final allocation used for persistence
and the response (`finalAllocated` in app.js lines 361-363):
`Math.round (sum of total_cost * 100) / 100`. -/
def finalAllocated (d : AIData) : ℚ :=
  round2 (sumTotalCost d.products)

/-- Remaining budget: `Math.round ((budget_limit - finalAllocated) * 100) / 100`. -/
def remainingBudget (budget : ℚ) (d : AIData) : ℚ :=
  round2 (budget - finalAllocated d)

/-- Canonical unit price of a line item's identifier, 0 if unresolved. -/
def canonicalUnitPrice (catalog : List Product) (item : AIItem) : ℚ :=
  match findProduct catalog item.product_id with
  | some p => p.unit_price
  | none => 0

/-- Modelled from the spec: the server-recomputed allocation the spec
claims is persisted, `Σ (quantity_i × canonical unit price_i)` rounded
to two decimals.  Stated for comparison with `finalAllocated`, which is
what the code actually computes (from the claimed line totals). -/
def specServerRecomputedAllocated (catalog : List Product) (items : List AIItem) : ℚ :=
  round2 ((items.map (fun it => (it.quantity : ℚ) * canonicalUnitPrice catalog it)).sum)

/-! ## Impact calculator (services/impactService.js) -/

/-- Result of `computeImpact`. -/
structure ImpactTotals where
  total_plastic_saved : ℚ
  total_carbon_avoided : ℚ
deriving Repr, DecidableEq

/-- Accumulation loop of `computeImpact`: for each accepted line item,
resolve the identifier (`Product.findById`), fail when absent, else add
`(metric || 0) * quantity` to the running totals.  The head item is
checked first, as in the `for` loop. -/
def impactTotals (catalog : List Product) : List AIItem → Except String (ℚ × ℚ)
  | [] => .ok (0, 0)
  | item :: rest =>
    match findProduct catalog item.product_id with
    | none => .error ("Impact computation failed: product " ++ item.product_id ++ " not found")
    | some p =>
      match impactTotals catalog rest with
      | .error e => .error e
      | .ok (ps, ca) =>
        .ok ((p.plastic_saved_per_unit.getD 0) * (item.quantity : ℚ) + ps,
             (p.carbon_avoided_per_unit.getD 0) * (item.quantity : ℚ) + ca)

/-- `computeImpact`: totals rounded to two decimals at the end. -/
def computeImpact (catalog : List Product) (items : List AIItem) :
    Except String ImpactTotals :=
  match impactTotals catalog items with
  | .error e => .error e
  | .ok (ps, ca) => .ok ⟨round2 ps, round2 ca⟩

/-- Per-item plastic contribution `(plastic_saved_per_unit || 0) * quantity`,
0 when the identifier is unresolved (used only to state sums). -/
def plasticOf (catalog : List Product) (item : AIItem) : ℚ :=
  match findProduct catalog item.product_id with
  | some p => (p.plastic_saved_per_unit.getD 0) * (item.quantity : ℚ)
  | none => 0

/-- Per-item carbon contribution `(carbon_avoided_per_unit || 0) * quantity`. -/
def carbonOf (catalog : List Product) (item : AIItem) : ℚ :=
  match findProduct catalog item.product_id with
  | some p => (p.carbon_avoided_per_unit.getD 0) * (item.quantity : ℚ)
  | none => 0

/-! ## Retry-with-feedback controller (app.js `generateProposal`, service
revision, lines 332-421).

The provider call, the interaction log, the verification of one round's
raw content and the impact/persistence collaborators are abstracted as an
environment; the controller's control flow, the prompt-feedback
construction, the attempt bound and the write trace are modelled
faithfully.  A provider response is modelled per attempt number. -/

/-- Outcome of one `callAI` invocation. -/
inductive ProviderResult where
  | ok (raw : String)
  | fail (msg : String)
deriving Repr, DecidableEq

/-- Collaborators of one pipeline run.  `logFail`/`persistFail` return
`some msg` when the corresponding `create` call throws. -/
structure PipelineEnv where
  provider : ℕ → ProviderResult
  logFail : ℕ → Option String
  verify : String → Except String AIData
  impact : List AIItem → Except String ImpactTotals
  persistFail : ℕ → Option String

/-- Failure classes surfaced by the service: `ValidationError` (mapped to
HTTP 422 by the controller) versus every other error. -/
inductive PipeError where
  | validation (msg : String)
  | system (msg : String)
deriving Repr, DecidableEq

/-- The persisted/returned proposal core: server-recomputed allocation,
remaining budget, the untouched accepted products and computed impact. -/
structure PersistedProposal where
  allocated_budget : ℚ
  remaining_budget : ℚ
  products : List AIItem
  impact : ImpactTotals
deriving Repr, DecidableEq

/-- Store writes performed by one pipeline run: interaction-log entries
(`AILog.create`, recording the user prompt of that round and the raw
response) and proposal documents (`Proposal.create`). -/
inductive Write where
  | log (prompt raw : String)
  | proposal (p : PersistedProposal)
deriving Repr, DecidableEq

/-- Prefix of the rejection feedback, up to the injected reason. -/
def fbPre : String :=
  "\n\n⚠️ YOUR PREVIOUS RESPONSE WAS REJECTED. ERROR: \""

/-- Tail of the rejection feedback after the injected reason: the
closing quote and the explicit budget reminder. -/
def fbTail (budget : ℚ) : String :=
  "\"" ++ "\nFix this issue. The budget limit is ₹" ++ toString budget ++
    " — your allocated_budget MUST be ≤ ₹" ++ toString budget ++
    ". Use fewer products or smaller quantities."

/-- Feedback appended to the base user prompt after a rejected round
(app.js lines 409-411): the rejection reason and the budget reminder. -/
def rejectionFeedback (reason : String) (budget : ℚ) : String :=
  fbPre ++ reason ++ fbTail budget

/-- Message of the fatal logging failure (app.js line 353). -/
def loggingFailureMsg (msg : String) : String :=
  "Logging failure — proposal aborted: " ++ msg

/-- Steps 10-12 on an accepted candidate: final allocation, remaining
budget and the record passed to `Proposal.create` and returned. -/
def assembleSuccess (budget : ℚ) (d : AIData) (imp : ImpactTotals) : PersistedProposal :=
  ⟨finalAllocated d, remainingBudget budget d, d.products, imp⟩

/-- The retry loop of `generateProposal`.  `fuel` is the number of
attempts still allowed including the current one; `attempt` is the
1-based attempt counter; `prompt` is the user prompt for this round;
`trace` accumulates store writes.  On a `ValidationError` with attempts
remaining the next round's prompt is the base prompt plus the rejection
feedback; with no attempts remaining the last rejection reason is
raised.  Provider, logging, impact and persistence failures propagate
immediately as system errors. -/
def loopFrom (env : PipelineEnv) (base : String) (budget : ℚ) :
    ℕ → ℕ → String → List Write → List Write × Except PipeError PersistedProposal
  | 0, _, _, trace => (trace, .error (.validation ""))
  | fuel+1, attempt, prompt, trace =>
    match env.provider attempt with
    | .fail msg => (trace, .error (.system msg))
    | .ok raw =>
      match env.logFail attempt with
      | some lmsg => (trace, .error (.system (loggingFailureMsg lmsg)))
      | none =>
        let trace' := trace ++ [.log prompt raw]
        match env.verify raw with
        | .ok d =>
          match env.impact d.products with
          | .error m => (trace', .error (.system m))
          | .ok imp =>
            match env.persistFail attempt with
            | some pmsg => (trace', .error (.system pmsg))
            | none =>
              let p := assembleSuccess budget d imp
              (trace' ++ [.proposal p], .ok p)
        | .error reason =>
          if 0 < fuel then
            loopFrom env base budget fuel (attempt + 1)
              (base ++ rejectionFeedback reason budget) trace'
          else (trace', .error (.validation reason))

/-- `MAX_VALIDATION_RETRIES` (app.js line 332). -/
def MAX_VALIDATION_RETRIES : ℕ := 5

/-- The whole validation loop of `generateProposal`, starting at attempt
1 with the base user prompt and an empty write trace. -/
def generateProposalPipeline (env : PipelineEnv) (userPrompt : String) (budget : ℚ) :
    List Write × Except PipeError PersistedProposal :=
  loopFrom env userPrompt budget MAX_VALIDATION_RETRIES 1 userPrompt []

/-- The user prompt the controller sends in round `a` of a run whose
earlier rounds were rejected with reasons `r 1, r 2, …`: the base prompt
in round 1, the base prompt plus the feedback for the previous round's
reason afterwards. -/
def promptAt (base : String) (budget : ℚ) (r : ℕ → String) : ℕ → String
  | 0 => base
  | 1 => base
  | a + 2 => base ++ rejectionFeedback (r (a + 1)) budget

/-- Expected log-writes of `j` consecutive cleanly rejected rounds
starting at `attempt` with current prompt `prompt`. -/
def rejectLogs (base : String) (budget : ℚ) (raw r : ℕ → String)
    (prompt : String) (attempt : ℕ) : ℕ → List Write
  | 0 => []
  | j + 1 =>
    .log prompt (raw attempt) ::
      rejectLogs base budget raw r (base ++ rejectionFeedback (r attempt) budget)
        (attempt + 1) j

/-- Prompt in use after `j` cleanly rejected rounds starting at
`attempt` with prompt `prompt`. -/
def promptAfter (base : String) (budget : ℚ) (r : ℕ → String)
    (prompt : String) (attempt j : ℕ) : String :=
  if j = 0 then prompt else base ++ rejectionFeedback (r (attempt + j - 1)) budget

/-- Predicate selecting proposal writes. -/
def isProposalWrite : Write → Bool
  | .proposal _ => true
  | .log _ _ => false

/-- Number of proposal documents created in a trace. -/
def proposalCount (trace : List Write) : ℕ :=
  (trace.filter isProposalWrite).length

/-! ## Provider client (src/unnamed/part_006, providers/aiProvider.js) -/

/-- Axios error shape as inspected by `isRetryable`:
`error.response?.status`, `error.code`, and truthiness of
`error.request`. -/
structure AxiosError where
  status : Option ℕ
  code : Option String
  hasRequest : Bool
deriving Repr, DecidableEq

/-- `NETWORK_ERROR_CODES` (part_006 lines 13-19). -/
def networkErrorCodes : List String :=
  ["ECONNABORTED", "ENOTFOUND", "ECONNRESET", "ETIMEDOUT", "EAI_AGAIN"]

/-- The retry classifier (part_006 lines 29-44): with a response,
retryable iff status is 429 or 5xx; without a response, retryable iff the
error code is a known network code or a request object exists (axios:
request sent, no response received). -/
def isRetryable (e : AxiosError) : Bool :=
  match e.status with
  | some s => decide (s = 429 ∨ 500 ≤ s)
  | none =>
    (match e.code with
     | some c => networkErrorCodes.contains c
     | none => false) || e.hasRequest

/-- Modelled from the spec: a network-level failure (timeout, DNS,
connection reset, or a request that got no response at all) — no HTTP
response was received and either the error code is one of the network
codes or the request was issued. -/
def specNetworkLevelFailure (e : AxiosError) : Prop :=
  e.status = none ∧ ((∃ c, e.code = some c ∧ c ∈ networkErrorCodes) ∨ e.hasRequest = true)

/-- Modelled from the spec: retryable = network-level failure, HTTP 5xx,
or HTTP 429. -/
def specRetryable (e : AxiosError) : Prop :=
  (∃ s, e.status = some s ∧ (s = 429 ∨ 500 ≤ s)) ∨ specNetworkLevelFailure e

/-- Provider failure classes: `ProviderRateLimitError` (carrying the
computed wait) versus a generic `Groq API error`. -/
inductive ProviderError where
  | rateLimit (msg : String) (retryAfterMs : ℤ)
  | generic (msg : String)
deriving Repr, DecidableEq

/-- Outcome of one physical HTTP attempt.  `parsedRetry` models
`parseRetryAfterMs err` (header seconds, header date, or the
`try again in Xs` hint — `none` when nothing usable was found; the
source never produces a non-positive hint). -/
inductive GroqOutcome where
  | success (content : String)
  | httpError (e : AxiosError) (msg : String) (parsedRetry : Option ℤ)
deriving Repr, DecidableEq

/-- Wait duration computed for a 429 (part_006 line 124-126):
`max (parsedDelay || retryDelayMs * attempt, rateLimitMinDelayMs) + 500`. -/
def delayMsFor (parsedRetry : Option ℤ) (retryDelayMs rateLimitMinDelayMs : ℤ)
    (attempt : ℕ) : ℤ :=
  max (parsedRetry.getD (retryDelayMs * (attempt : ℤ))) rateLimitMinDelayMs + 500

/-- The watermark update on a 429 (part_006 line 128):
`groqRateLimitedUntil = Math.max (groqRateLimitedUntil, Date.now() + delayMs)`. -/
def updateCooldown (watermark now delayMs : ℤ) : ℤ :=
  max watermark (now + delayMs)

/-- `waitForGroqCooldown` (part_006 lines 74-80): an attempt arriving at
`now` issues its request no earlier than the watermark. -/
def cooldownWaitedStart (watermark now : ℤ) : ℤ :=
  max now watermark

/-- Shared-watermark events: each 429 seen by any call sharing the
process-wide watermark, in the order the single-threaded event loop
interleaves them. -/
inductive CooldownEvent where
  | rateLimitHit (now delayMs : ℤ)
deriving Repr, DecidableEq

/-- Watermark evolution across a sequence of rate-limit events. -/
def runCooldown : ℤ → List CooldownEvent → ℤ
  | w, [] => w
  | w, .rateLimitHit now d :: evs => runCooldown (updateCooldown w now d) evs

/-- The attempt loop of `callGroq` (part_006 lines 86-150) with the
physical outcomes abstracted per attempt: on 429 retry while attempts
remain, else raise `ProviderRateLimitError` with the computed wait; on
other retryable errors retry while attempts remain; on a non-retryable
error fail at once with `Groq API error`.  Returns the result together
with the number of the attempt on which the loop stopped. -/
def callGroqModel (maxRetries : ℕ) (retryDelayMs rateLimitMinDelayMs : ℤ)
    (outcomes : ℕ → GroqOutcome) :
    ℕ → ℕ → Except ProviderError String × ℕ
  | _, 0 => (.error (.generic ("Groq failed after " ++ toString maxRetries ++ " retries")), maxRetries)
  | attempt, fuel + 1 =>
    match outcomes attempt with
    | .success content => (.ok content, attempt)
    | .httpError e msg parsedRetry =>
      if e.status = some 429 then
        if 0 < fuel then
          callGroqModel maxRetries retryDelayMs rateLimitMinDelayMs outcomes (attempt + 1) fuel
        else
          (.error (.rateLimit ("Groq API rate limit: " ++ msg)
            (delayMsFor parsedRetry retryDelayMs rateLimitMinDelayMs attempt)), attempt)
      else if isRetryable e = true ∧ 0 < fuel then
        callGroqModel maxRetries retryDelayMs rateLimitMinDelayMs outcomes (attempt + 1) fuel
      else (.error (.generic ("Groq API error: " ++ msg)), attempt)

/-! ## Strict JSON parse (step 6) -/

/-- JSON whitespace. -/
def isJsonWs (c : Char) : Bool :=
  c = ' ' ∨ c = '\t' ∨ c = '\n' ∨ c = '\r'

/-- Skip JSON whitespace. -/
def skipWs : List Char → List Char
  | [] => []
  | c :: cs => if isJsonWs c then skipWs cs else c :: cs

/-- Decimal digit. -/
def isDigitChar (c : Char) : Bool :=
  '0' ≤ c ∧ c ≤ '9'

/-- Hexadecimal digit. -/
def isHexChar (c : Char) : Bool :=
  isDigitChar c ∨ ('a' ≤ c ∧ c ≤ 'f') ∨ ('A' ≤ c ∧ c ≤ 'F')

/-- Characters allowed unescaped inside a JSON string. -/
def isJsonStringChar (c : Char) : Bool :=
  32 ≤ c.toNat ∧ c ≠ '"' ∧ c ≠ '\\'

/-- Remainder of a JSON string after the opening quote. -/
def parseStringRest : List Char → Option (List Char)
  | [] => none
  | c :: cs =>
    if c = '"' then some cs
    else if c = '\\' then
      match cs with
      | [] => none
      | e :: cs2 =>
        if e = '"' ∨ e = '\\' ∨ e = '/' ∨ e = 'b' ∨ e = 'f' ∨ e = 'n' ∨ e = 'r' ∨ e = 't' then
          parseStringRest cs2
        else if e = 'u' then
          match cs2 with
          | h1 :: h2 :: h3 :: h4 :: cs3 =>
            if isHexChar h1 ∧ isHexChar h2 ∧ isHexChar h3 ∧ isHexChar h4 then
              parseStringRest cs3
            else none
          | _ => none
        else none
    else if isJsonStringChar c then parseStringRest cs
    else none

/-- Integer part of a JSON number: `0`, or a nonzero digit followed by
digits. -/
def parseIntPart : List Char → Option (List Char)
  | [] => none
  | c :: cs =>
    if c = '0' then some cs
    else if isDigitChar c then some (cs.dropWhile isDigitChar)
    else none

/-- Optional fraction part: `.` followed by at least one digit. -/
def parseFracPart (cs : List Char) : Option (List Char) :=
  match cs with
  | '.' :: rest =>
    match rest with
    | d :: _ => if isDigitChar d then some (rest.dropWhile isDigitChar) else none
    | [] => none
  | _ => some cs

/-- Optional exponent part: `e`/`E`, optional sign, at least one digit. -/
def parseExpPart (cs : List Char) : Option (List Char) :=
  match cs with
  | [] => some []
  | e :: rest =>
    if e = 'e' ∨ e = 'E' then
      let rest2 := match rest with
        | s :: r => if s = '+' ∨ s = '-' then r else rest
        | [] => rest
      match rest2 with
      | d :: _ => if isDigitChar d then some (rest2.dropWhile isDigitChar) else none
      | [] => none
    else some (e :: rest)

/-- JSON number: optional minus, integer part, optional fraction and
exponent. -/
def parseNumber (cs : List Char) : Option (List Char) := do
  let cs1 := match cs with
    | '-' :: r => r
    | _ => cs
  let cs2 ← parseIntPart cs1
  let cs3 ← parseFracPart cs2
  parseExpPart cs3

/-- Expect a literal character sequence. -/
def expectChars : List Char → List Char → Option (List Char)
  | [], cs => some cs
  | l :: ls, c :: cs => if c = l then expectChars ls cs else none
  | _ :: _, [] => none

mutual

/-- One JSON value, per the JSON grammar applied by `JSON.parse`
(ECMA-404): `null`, `true`, `false`, string, number, array or object.
`fuel` bounds the recursion depth (one unit per parsed value). -/
def parseJsonValue : ℕ → List Char → Option (List Char)
  | 0, _ => none
  | _ + 1, [] => none
  | fuel + 1, c :: cs =>
    if c = 'n' then expectChars ['u', 'l', 'l'] cs
    else if c = 't' then expectChars ['r', 'u', 'e'] cs
    else if c = 'f' then expectChars ['a', 'l', 's', 'e'] cs
    else if c = '"' then parseStringRest cs
    else if c = '[' then
      match skipWs cs with
      | ']' :: rest => some rest
      | cs2 => parseJsonElems fuel cs2
    else if c = '\x7b' then
      match skipWs cs with
      | '\x7d' :: rest => some rest
      | cs2 => parseJsonMembers fuel cs2
    else if c = '-' ∨ isDigitChar c then parseNumber (c :: cs)
    else none

/-- One or more array elements, then `]`. -/
def parseJsonElems : ℕ → List Char → Option (List Char)
  | 0, _ => none
  | fuel + 1, cs =>
    match parseJsonValue fuel cs with
    | none => none
    | some rest =>
      match skipWs rest with
      | ',' :: rest2 => parseJsonElems fuel (skipWs rest2)
      | ']' :: rest2 => some rest2
      | _ => none

/-- One or more object members (`"key": value`), then the closing
brace. -/
def parseJsonMembers : ℕ → List Char → Option (List Char)
  | 0, _ => none
  | fuel + 1, cs =>
    match cs with
    | '"' :: cs2 =>
      match parseStringRest cs2 with
      | none => none
      | some rest =>
        match skipWs rest with
        | ':' :: rest2 =>
          match parseJsonValue fuel (skipWs rest2) with
          | none => none
          | some rest3 =>
            match skipWs rest3 with
            | ',' :: rest4 => parseJsonMembers fuel (skipWs rest4)
            | '\x7d' :: rest4 => some rest4
            | _ => none
        | _ => none
    | _ => none

end

/-- Strict JSON validity of a whole text, as accepted by a single
`JSON.parse (rawContent)` call: optional whitespace, one value, optional
whitespace, end of input. -/
def jsonValid (s : String) : Bool :=
  match parseJsonValue (s.length + 1) (skipWs s.data) with
  | some rest => (skipWs rest).isEmpty
  | none => false

/-- Step 6 of `parseAndValidate` (app.js lines 429-435): one strict
`JSON.parse` with no fence stripping, no recovery and no retry; failure
is a `ValidationError`. -/
def strictJsonParseStep (raw : String) : Except String Unit :=
  if jsonValid raw then .ok () else .error "AI response is not valid JSON"

/-- A response body wrapped in markdown code fences, as an LLM sometimes
returns despite instructions. -/
def mdFence (s : String) : String :=
  "```json\n" ++ s ++ "\n```"

/-! ## Concrete fixtures used by counterexamples and witnesses -/

/-- Catalog item A of the spec's test properties: price 699. -/
def toteBag : Product :=
  ⟨"prodA", "Recycled Cotton Tote Bag", "Bags", 699, some (3/10), some (1/2)⟩

/-- A second catalog item. -/
def steelBottle : Product :=
  ⟨"prodB", "Stainless Steel Water Bottle", "Bottles", 100, some 1, some 2⟩

/-- Line item: 20 × item A at 699 with the correct line total. -/
def itemA : AIItem :=
  ⟨"prodA", "Recycled Cotton Tote Bag", 20, 699, 13980⟩

/-- Line item A with the wrong claimed line total 14000. -/
def itemACost14000 : AIItem :=
  ⟨"prodA", "Recycled Cotton Tote Bag", 20, 699, 14000⟩

/-- Line item: 1 × item B at 100 with claimed line total 100.01. -/
def itemBSlop : AIItem :=
  ⟨"prodB", "Stainless Steel Water Bottle", 1, 100, 10001/100⟩

/-- Line item: 3 × item B at 100 with the correct line total. -/
def itemB3 : AIItem :=
  ⟨"prodB", "Stainless Steel Water Bottle", 3, 100, 300⟩

/-- The spec's accepted candidate: 20 × item A at 699, correct line
total 13980, budget 50000. -/
def candAccepted : AIData :=
  ⟨"Test proposal summary", 50000, 13980, [itemA],
    "Estimated 6kg plastic saved", 85/100⟩

/-- The spec's cost-mismatch candidate: claimed line total 14000 instead
of 13980. -/
def candCostMismatch : AIData :=
  ⟨"Test proposal summary", 50000, 14000, [itemACost14000],
    "Estimated 6kg plastic saved", 85/100⟩

/-- The spec's over-budget candidate: budget 1000, 20 × item A, correct
line total, but `allocated` claims 0. -/
def candOverClaimZero : AIData :=
  ⟨"Test proposal summary", 1000, 0, [itemA],
    "Estimated 6kg plastic saved", 85/100⟩

/-- The over-budget candidate with a consistent `allocated` claim. -/
def candOverClaimTrue : AIData :=
  ⟨"Test proposal summary", 1000, 13980, [itemA],
    "Estimated 6kg plastic saved", 85/100⟩

/-- A candidate whose single claimed line total 100.01 is off by exactly
the 0.01 tolerance from quantity × canonical price = 100. -/
def candSlop : AIData :=
  ⟨"Test proposal summary", 1000, 10001/100, [itemBSlop],
    "Estimated 6kg plastic saved", 9/10⟩

/-- Candidate identical to the accepted one except that its claimed
total-budget-limit field disagrees with the request. -/
def candBadLimit : AIData :=
  ⟨"Test proposal summary", 49999, 13980, [itemA],
    "Estimated 6kg plastic saved", 85/100⟩

/-- One clean rejected round: the provider answered `raw a`, logging
succeeded, and verification rejected with reason `r a`. -/
def cleanReject (env : PipelineEnv) (raw r : ℕ → String) (a : ℕ) : Prop :=
  env.provider a = .ok (raw a) ∧ env.logFail a = none ∧
    env.verify (raw a) = .error (r a)

/-- Raw provider response of demo round `a`. -/
def demoRaw : ℕ → String :=
  fun a => "raw" ++ toString a

/-- Rejection reason of demo round `a`. -/
def demoReason : ℕ → String :=
  fun a => "bad " ++ ("raw" ++ toString a)

/-- Demo environment: rounds 1 and 2 are rejected, round 3 is accepted
with the spec's accepted candidate; impact is the real impact
calculator over the catalog `[toteBag]`. -/
def demoEnv : PipelineEnv where
  provider := fun a => .ok (demoRaw a)
  logFail := fun _ => none
  verify := fun s => if s = "raw3" then .ok candAccepted else .error ("bad " ++ s)
  impact := fun items => computeImpact [toteBag] items
  persistFail := fun _ => none

/-- Base user prompt of the demo run. -/
def demoPrompt : String :=
  "Budget: ₹50000. Client: N/A. Categories: N/A. Priority: N/A. Return JSON only."

/-- An HTTP 400 axios error: a response was received, so it is not a
network-level failure, and the status is neither 429 nor 5xx. -/
def badRequestError : AxiosError :=
  ⟨some 400, none, true⟩

/-- Outcomes where every attempt fails with the 400 error. -/
def badRequestOutcomes : ℕ → GroqOutcome :=
  fun _ => .httpError badRequestError "Bad Request" none

/-- Catalog with both fixture products. -/
def impactCatalog : List Product :=
  [toteBag, steelBottle]

/-- Two accepted line items. -/
def impactItems : List AIItem :=
  [itemA, itemB3]

/-- The same accepted line items in the opposite order. -/
def impactItemsRev : List AIItem :=
  [itemB3, itemA]

/-- A well-formed JSON document (an object with nested values). -/
def jsonExample : String :=
  "\x7b\"proposal_summary\":\"Test\",\"allocated_budget\":13980,\"products\":[\x7b\"quantity\":20,\"unit_price\":699.0\x7d],\"ok\":true,\"note\":null\x7d"

/-- Per-item success of the identifier, name and unit-price checks only
(steps 8a-8c). -/
def itemPassesRefChecks (catalog : List Product) (item : AIItem) : Prop :=
  ∃ db, findProduct catalog item.product_id = some db ∧
    item.name = db.name ∧ item.unit_price = db.unit_price

/-- Per-item success condition for steps 8a-8d. -/
def itemOk (catalog : List Product) (item : AIItem) : Prop :=
  ∃ db, findProduct catalog item.product_id = some db ∧
    item.name = db.name ∧ item.unit_price = db.unit_price ∧
    jsAbs (item.total_cost - expectedCost item) ≤ 1/100

theorem checkItem_eq_of_none (catalog : List Product) (item : AIItem)
    (h : findProduct catalog item.product_id = none) :
    checkItem catalog item = .error (notFoundMsg item.product_id) := by
  unfold checkItem; rw [h]

theorem checkItem_eq_of_some (catalog : List Product) (item : AIItem) (db : Product)
    (h : findProduct catalog item.product_id = some db) :
    checkItem catalog item =
      (if item.name ≠ db.name then .error (nameMismatchMsg item db)
       else if item.unit_price ≠ db.unit_price then .error (priceMismatchMsg item db)
       else if jsAbs (item.total_cost - expectedCost item) > 1/100 then
         .error (costMismatchMsg item)
       else .ok ()) := by
  unfold checkItem; rw [h]

theorem checkItem_ok_iff (catalog : List Product) (item : AIItem) :
    checkItem catalog item = .ok () ↔ itemOk catalog item := by
  unfold itemOk
  cases hf : findProduct catalog item.product_id with
  | none =>
    rw [checkItem_eq_of_none catalog item hf]
    simp
  | some db =>
    rw [checkItem_eq_of_some catalog item db hf]
    constructor
    · intro h
      split_ifs at h with h1 h2 h3
      exact ⟨db, rfl, not_ne_iff.mp h1, not_ne_iff.mp h2, not_lt.mp h3⟩
    · rintro ⟨db', hdb', h1, h2, h3⟩
      injection hdb' with hdb'
      subst hdb'
      rw [if_neg (not_ne_iff.mpr h1), if_neg (not_ne_iff.mpr h2),
        if_neg (not_lt.mpr h3)]

theorem checkItems_ok_iff (catalog : List Product) (items : List AIItem) :
    checkItems catalog items = .ok () ↔ ∀ item ∈ items, itemOk catalog item := by
  induction items with
  | nil => simp [checkItems]
  | cons item rest ih =>
    constructor
    · intro h
      unfold checkItems at h
      cases hc : checkItem catalog item with
      | error e => rw [hc] at h; exact absurd h (by simp)
      | ok u =>
        cases u
        rw [hc] at h
        intro x hx
        rcases List.mem_cons.mp hx with rfl | hmem
        · exact (checkItem_ok_iff catalog x).mp hc
        · exact (ih.mp h) x hmem
    · intro h
      unfold checkItems
      rw [(checkItem_ok_iff catalog item).mpr (h item (List.mem_cons_self item rest))]
      exact ih.mpr (fun x hx => h x (List.mem_cons_of_mem item hx))

theorem parseAndValidate_eq_of_checkItems_ok (catalog : List Product) (budget : ℚ)
    (d : AIData) (hc : checkItems catalog d.products = .ok ()) :
    parseAndValidate catalog budget d =
      (if jsAbs (d.allocated_budget - computedAllocated d) > allocatedTolerance d then
         .error (allocMismatchMsg d)
       else if d.total_budget_limit ≠ budget then
         .error (limitMismatchMsg d budget)
       else if computedAllocated d > budget then
         .error (budgetExceededMsg (computedAllocated d) budget)
       else .ok d) := by
  unfold parseAndValidate; rw [hc]

theorem parseAndValidate_eq_of_checkItems_error (catalog : List Product) (budget : ℚ)
    (d : AIData) (e : String) (hc : checkItems catalog d.products = .error e) :
    parseAndValidate catalog budget d = .error e := by
  unfold parseAndValidate; rw [hc]

/-- Characterization of acceptance by the verifier. -/
theorem parseAndValidate_ok_iff (catalog : List Product) (budget : ℚ)
    (d d' : AIData) :
    parseAndValidate catalog budget d = .ok d' ↔
      d' = d ∧ (∀ item ∈ d.products, itemOk catalog item) ∧
      jsAbs (d.allocated_budget - computedAllocated d) ≤ allocatedTolerance d ∧
      d.total_budget_limit = budget ∧
      computedAllocated d ≤ budget := by
  constructor
  · intro h
    cases hc : checkItems catalog d.products with
    | error e =>
      rw [parseAndValidate_eq_of_checkItems_error catalog budget d e hc] at h
      exact absurd h (by simp)
    | ok u =>
      cases u
      rw [parseAndValidate_eq_of_checkItems_ok catalog budget d hc] at h
      split_ifs at h with h1 h2 h3
      all_goals
        first
          | exact Except.noConfusion h
          | (injection h with h;
             exact ⟨h.symm, (checkItems_ok_iff _ _).mp hc, not_lt.mp h1,
               not_ne_iff.mp h2, not_lt.mp h3⟩)
  · rintro ⟨h0, hitems, h1, h2, h3⟩
    rw [parseAndValidate_eq_of_checkItems_ok catalog budget d
      ((checkItems_ok_iff _ _).mpr hitems)]
    rw [if_neg (not_lt.mpr h1), if_neg (not_ne_iff.mpr h2), if_neg (not_lt.mpr h3), h0]

theorem checkItems_cons_of_ok (catalog : List Product) (item : AIItem)
    (rest : List AIItem) (h : checkItem catalog item = .ok ()) :
    checkItems catalog (item :: rest) = checkItems catalog rest := by
  show (match checkItem catalog item with
    | Except.error e => Except.error e
    | Except.ok _ => checkItems catalog rest) = checkItems catalog rest
  rw [h]

theorem checkItems_cons_of_error (catalog : List Product) (item : AIItem)
    (rest : List AIItem) (e : String) (h : checkItem catalog item = .error e) :
    checkItems catalog (item :: rest) = .error e := by
  show (match checkItem catalog item with
    | Except.error e => Except.error e
    | Except.ok _ => checkItems catalog rest) = Except.error e
  rw [h]

theorem eval_checkItem_itemA : checkItem [toteBag] itemA = .ok () := by
  rw [checkItem_eq_of_some [toteBag] itemA toteBag rfl]
  rw [if_neg (by decide), if_neg (by decide),
    if_neg (by norm_num [itemA, toteBag, jsAbs, expectedCost, round2, jsRound])]

theorem eval_checkItems_itemA : checkItems [toteBag] [itemA] = .ok () := by
  rw [checkItems_cons_of_ok [toteBag] itemA [] eval_checkItem_itemA]
  rfl

theorem eval_candAccepted :
    parseAndValidate [toteBag] 50000 candAccepted = .ok candAccepted := by
  rw [parseAndValidate_eq_of_checkItems_ok [toteBag] 50000 candAccepted
    eval_checkItems_itemA]
  rw [if_neg (by norm_num [candAccepted, itemA, jsAbs, computedAllocated, sumTotalCost,
      round2, jsRound, allocatedTolerance, jsMax]),
    if_neg (by decide),
    if_neg (by norm_num [candAccepted, itemA, computedAllocated, sumTotalCost,
      round2, jsRound])]

theorem eval_computedAllocated_itemA (d : AIData) (h : d.products = [itemA]) :
    computedAllocated d = 13980 := by
  rw [computedAllocated, h]
  norm_num [itemA, sumTotalCost, round2, jsRound]

theorem eval_candOverClaimZero :
    parseAndValidate [toteBag] 1000 candOverClaimZero =
      .error (allocMismatchMsg candOverClaimZero) := by
  rw [parseAndValidate_eq_of_checkItems_ok [toteBag] 1000 candOverClaimZero
    eval_checkItems_itemA]
  rw [if_pos (by
    rw [eval_computedAllocated_itemA candOverClaimZero rfl]
    norm_num [candOverClaimZero, jsAbs, allocatedTolerance, jsMax])]

theorem eval_candOverClaimTrue :
    parseAndValidate [toteBag] 1000 candOverClaimTrue =
      .error (budgetExceededMsg 13980 1000) := by
  rw [parseAndValidate_eq_of_checkItems_ok [toteBag] 1000 candOverClaimTrue
    eval_checkItems_itemA]
  rw [if_neg (by
      rw [eval_computedAllocated_itemA candOverClaimTrue rfl]
      norm_num [candOverClaimTrue, jsAbs, allocatedTolerance, jsMax]),
    if_neg (by decide),
    if_pos (by
      rw [eval_computedAllocated_itemA candOverClaimTrue rfl]
      norm_num),
    eval_computedAllocated_itemA candOverClaimTrue rfl]

theorem eval_candBadLimit :
    parseAndValidate [toteBag] 50000 candBadLimit =
      .error (limitMismatchMsg candBadLimit 50000) := by
  rw [parseAndValidate_eq_of_checkItems_ok [toteBag] 50000 candBadLimit
    eval_checkItems_itemA]
  rw [if_neg (by
      rw [eval_computedAllocated_itemA candBadLimit rfl]
      norm_num [candBadLimit, jsAbs, allocatedTolerance, jsMax]),
    if_pos (by decide)]

theorem eval_candCostMismatch :
    parseAndValidate [toteBag] 50000 candCostMismatch =
      .error (costMismatchMsg itemACost14000) := by
  have hci : checkItem [toteBag] itemACost14000 = .error (costMismatchMsg itemACost14000) := by
    rw [checkItem_eq_of_some [toteBag] itemACost14000 toteBag rfl]
    rw [if_neg (by decide), if_neg (by decide),
      if_pos (by norm_num [itemACost14000, jsAbs, expectedCost, round2, jsRound])]
  exact parseAndValidate_eq_of_checkItems_error [toteBag] 50000 candCostMismatch _
    (checkItems_cons_of_error [toteBag] itemACost14000 [] _ hci)

theorem eval_candSlop :
    parseAndValidate [steelBottle] 1000 candSlop = .ok candSlop := by
  have hci : checkItem [steelBottle] itemBSlop = .ok () := by
    rw [checkItem_eq_of_some [steelBottle] itemBSlop steelBottle rfl]
    rw [if_neg (by decide), if_neg (by decide),
      if_neg (by norm_num [itemBSlop, jsAbs, expectedCost, round2, jsRound])]
  rw [parseAndValidate_eq_of_checkItems_ok [steelBottle] 1000 candSlop
    (by rw [show candSlop.products = [itemBSlop] from rfl,
          checkItems_cons_of_ok [steelBottle] itemBSlop [] hci]; rfl)]
  rw [if_neg (by norm_num [candSlop, itemBSlop, jsAbs, computedAllocated, sumTotalCost,
      round2, jsRound, allocatedTolerance, jsMax]),
    if_neg (by decide),
    if_neg (by norm_num [candSlop, itemBSlop, computedAllocated, sumTotalCost,
      round2, jsRound])]

theorem checkItems_first_cost_error (catalog : List Product) (items : List AIItem)
    (hpass : ∀ item ∈ items, itemPassesRefChecks catalog item)
    (hviol : ∃ item ∈ items, jsAbs (item.total_cost - expectedCost item) > 1/100) :
    ∃ item ∈ items, jsAbs (item.total_cost - expectedCost item) > 1/100 ∧
      checkItems catalog items = .error (costMismatchMsg item) := by
  induction items with
  | nil => obtain ⟨x, hx, _⟩ := hviol; exact absurd hx (by simp)
  | cons item rest ih =>
    obtain ⟨db, hf, h1, h2⟩ := hpass item (List.mem_cons_self item rest)
    by_cases hv : jsAbs (item.total_cost - expectedCost item) > 1/100
    · refine ⟨item, List.mem_cons_self item rest, hv, ?_⟩
      refine checkItems_cons_of_error catalog item rest _ ?_
      rw [checkItem_eq_of_some catalog item db hf, if_neg (not_ne_iff.mpr h1),
        if_neg (not_ne_iff.mpr h2), if_pos hv]
    · have hok : checkItem catalog item = .ok () :=
        (checkItem_ok_iff catalog item).mpr ⟨db, hf, h1, h2, not_lt.mp hv⟩
      obtain ⟨x, hx, hxv⟩ := hviol
      rcases List.mem_cons.mp hx with rfl | hmem
      · exact absurd hxv hv
      · obtain ⟨y, hy, hyv, herr⟩ :=
          ih (fun z hz => hpass z (List.mem_cons_of_mem item hz)) ⟨x, hmem, hxv⟩
        refine ⟨y, List.mem_cons_of_mem item hy, hyv, ?_⟩
        rw [checkItems_cons_of_ok catalog item rest hok]
        exact herr

/-- C1: a candidate whose line items all pass the identifier, name and
unit-price checks, but in which some claimed line total differs from the
recomputed `quantity × canonical unit price` by more than 0.01, is
rejected with a cost-mismatch reason; and the verifier never silently
replaces a claimed line total — whenever it accepts, it returns the
candidate verbatim. -/
theorem costMismatch_rejected_not_corrected (catalog : List Product) (budget : ℚ)
    (d : AIData)
    (hpass : ∀ item ∈ d.products, itemPassesRefChecks catalog item)
    (hviol : ∃ item ∈ d.products, jsAbs (item.total_cost - expectedCost item) > 1/100) :
    (∃ item ∈ d.products, jsAbs (item.total_cost - expectedCost item) > 1/100 ∧
      parseAndValidate catalog budget d = .error (costMismatchMsg item)) ∧
    (∀ (cat : List Product) (b : ℚ) (d₀ d' : AIData),
      parseAndValidate cat b d₀ = .ok d' → d' = d₀) := by
  constructor
  · obtain ⟨item, hmem, hv, herr⟩ :=
      checkItems_first_cost_error catalog d.products hpass hviol
    exact ⟨item, hmem, hv,
      parseAndValidate_eq_of_checkItems_error catalog budget d _ herr⟩
  · intro cat b d₀ d' h
    exact ((parseAndValidate_ok_iff cat b d₀ d').mp h).1

theorem costMismatch_rejected_not_corrected_witness :
    parseAndValidate [toteBag] 50000 candCostMismatch =
      .error (costMismatchMsg itemACost14000) := by
  obtain ⟨x, hx, _, herr⟩ :=
    (costMismatch_rejected_not_corrected [toteBag] 50000 candCostMismatch
      (by
        intro item h
        rw [show candCostMismatch.products = [itemACost14000] from rfl,
          List.mem_singleton] at h
        subst h
        exact ⟨toteBag, rfl, rfl, rfl⟩)
      ⟨itemACost14000, by decide,
        by norm_num [itemACost14000, jsAbs, expectedCost, round2, jsRound]⟩).1
  rw [show candCostMismatch.products = [itemACost14000] from rfl,
    List.mem_singleton] at hx
  rw [hx] at herr
  exact herr

/-- C3 counterexample: with catalog `{A : 699}` and budget 1000, the
candidate selecting quantity 20 of A whose `allocated` field claims 0 is
rejected, but with the allocated-budget-mismatch reason of step 8e, not
with the budget-exceeded reason of step 9. -/
theorem overBudget_claimZero_counterexample :
    parseAndValidate [toteBag] 1000 candOverClaimZero =
      .error (allocMismatchMsg candOverClaimZero) ∧
    allocMismatchMsg candOverClaimZero ≠
      budgetExceededMsg (computedAllocated candOverClaimZero) 1000 := by
  constructor
  · exact eval_candOverClaimZero
  · have h1 : allocMismatchMsg candOverClaimZero =
        "Allocated budget mismatch: AI said ₹" ++ toString (0 : ℚ) ++
          ", computed ₹" ++ toString (13980 : ℚ) := by
      unfold allocMismatchMsg
      rw [eval_computedAllocated_itemA candOverClaimZero rfl]
      rfl
    have h2 : budgetExceededMsg (computedAllocated candOverClaimZero) 1000 =
        "Budget exceeded: allocated ₹" ++ toString (13980 : ℚ) ++
          " exceeds limit ₹" ++ toString (1000 : ℚ) := by
      unfold budgetExceededMsg
      rw [eval_computedAllocated_itemA candOverClaimZero rfl]
    rw [h1, h2]
    decide

/-- C3 (amended): the verifier never accepts a candidate whose
recomputed allocation exceeds the budget limit; when a candidate passes
the per-item checks, the allocated-tolerance check and the limit-field
check but its recomputed allocation exceeds the budget, the rejection
reason is budget-exceeded; in the spec's concrete scenario this reason
appears once the candidate's `allocated` field matches the recomputed
sum (13980), while the `allocated = 0` variant is rejected at the
earlier allocated-mismatch step. -/
theorem overBudget_always_rejected (catalog : List Product) (budget : ℚ)
    (d d' : AIData) :
    (parseAndValidate catalog budget d = .ok d' → computedAllocated d ≤ budget) ∧
    ((∀ item ∈ d.products, itemOk catalog item) →
      jsAbs (d.allocated_budget - computedAllocated d) ≤ allocatedTolerance d →
      d.total_budget_limit = budget →
      computedAllocated d > budget →
      parseAndValidate catalog budget d =
        .error (budgetExceededMsg (computedAllocated d) budget)) ∧
    parseAndValidate [toteBag] 1000 candOverClaimTrue =
      .error (budgetExceededMsg 13980 1000) := by
  refine ⟨?_, ?_, eval_candOverClaimTrue⟩
  · intro h
    exact ((parseAndValidate_ok_iff catalog budget d d').mp h).2.2.2.2
  · intro hitems h1 h2 h3
    rw [parseAndValidate_eq_of_checkItems_ok catalog budget d
      ((checkItems_ok_iff _ _).mpr hitems)]
    rw [if_neg (not_lt.mpr h1), if_neg (not_ne_iff.mpr h2), if_pos h3]

theorem overBudget_always_rejected_witness :
    computedAllocated candAccepted ≤ 50000 :=
  (overBudget_always_rejected [toteBag] 50000 candAccepted candAccepted).1
    eval_candAccepted

/-- C4 counterexample: an accepted candidate (single line item, quantity
1, canonical price 100, claimed line total 100.01 — inside the 0.01
tolerance) whose persisted allocation `finalAllocated` is 100.01,
while `Σ (quantity × canonical unit price)` rounded to two decimals is
100; the two differ. -/
theorem allocation_not_canonical_counterexample :
    parseAndValidate [steelBottle] 1000 candSlop = .ok candSlop ∧
    finalAllocated candSlop = 10001/100 ∧
    specServerRecomputedAllocated [steelBottle] candSlop.products = 100 ∧
    finalAllocated candSlop ≠ specServerRecomputedAllocated [steelBottle] candSlop.products := by
  have h1 : finalAllocated candSlop = 10001/100 := by
    norm_num [finalAllocated, candSlop, itemBSlop, sumTotalCost, round2, jsRound]
  have h2 : specServerRecomputedAllocated [steelBottle] candSlop.products = 100 := by
    have hcup : canonicalUnitPrice [steelBottle] itemBSlop = 100 := rfl
    rw [show candSlop.products = [itemBSlop] from rfl, specServerRecomputedAllocated]
    simp only [List.map_cons, List.map_nil, List.sum_cons, List.sum_nil]
    rw [hcup]
    norm_num [itemBSlop, round2, jsRound]
  refine ⟨eval_candSlop, h1, h2, ?_⟩
  rw [h1, h2]
  norm_num

/-- C4 (amended): for every accepted candidate the persisted/returned
allocation is the server-recomputed two-decimal rounding of the sum of
the claimed line totals — each of which the verifier has pinned to
within 0.01 of `quantity × canonical unit price` — it never uses the
model's claimed `allocated_budget` field, it is at most the budget
limit, and the remaining budget is `budget − allocated` rounded to two
decimals. -/
theorem accepted_allocation_recomputed (catalog : List Product) (budget : ℚ)
    (d d' : AIData) (imp : ImpactTotals)
    (h : parseAndValidate catalog budget d = .ok d') :
    (assembleSuccess budget d' imp).allocated_budget = round2 (sumTotalCost d.products) ∧
    (assembleSuccess budget d' imp).allocated_budget ≤ budget ∧
    (assembleSuccess budget d' imp).remaining_budget =
      round2 (budget - (assembleSuccess budget d' imp).allocated_budget) ∧
    (∀ item ∈ d.products, ∃ db, findProduct catalog item.product_id = some db ∧
      item.unit_price = db.unit_price ∧
      jsAbs (item.total_cost - round2 ((item.quantity : ℚ) * db.unit_price)) ≤ 1/100) ∧
    (∀ q : ℚ, finalAllocated { d with allocated_budget := q } = finalAllocated d) := by
  obtain ⟨rfl, hitems, _, _, hle⟩ := (parseAndValidate_ok_iff catalog budget d d').mp h
  refine ⟨rfl, hle, rfl, ?_, fun q => rfl⟩
  intro item hmem
  obtain ⟨db, hf, _, hp, hc⟩ := hitems item hmem
  refine ⟨db, hf, hp, ?_⟩
  rw [← hp]
  exact hc

theorem accepted_allocation_recomputed_witness :
    (assembleSuccess 1000 candSlop ⟨1, 2⟩).allocated_budget =
      round2 (sumTotalCost candSlop.products) :=
  (accepted_allocation_recomputed [steelBottle] 1000 candSlop candSlop ⟨1, 2⟩
    eval_candSlop).1

/-- C6: the verifier accepts only candidates whose claimed
total-budget-limit field equals the request's budget limit exactly; and
a candidate that passes the preceding checks but claims a different
limit is rejected with the budget-limit-mismatch reason — there is no
tolerance in this comparison. -/
theorem budget_limit_field_exact (catalog : List Product) (budget : ℚ) (d d' : AIData) :
    (parseAndValidate catalog budget d = .ok d' → d.total_budget_limit = budget) ∧
    ((∀ item ∈ d.products, itemOk catalog item) →
      jsAbs (d.allocated_budget - computedAllocated d) ≤ allocatedTolerance d →
      d.total_budget_limit ≠ budget →
      parseAndValidate catalog budget d = .error (limitMismatchMsg d budget)) := by
  constructor
  · intro h
    exact ((parseAndValidate_ok_iff catalog budget d d').mp h).2.2.2.1
  · intro hitems h1 h2
    rw [parseAndValidate_eq_of_checkItems_ok catalog budget d
      ((checkItems_ok_iff _ _).mpr hitems)]
    rw [if_neg (not_lt.mpr h1), if_pos h2]

theorem budget_limit_field_exact_witness :
    candAccepted.total_budget_limit = 50000 ∧
    parseAndValidate [toteBag] 50000 candBadLimit =
      .error (limitMismatchMsg candBadLimit 50000) := by
  constructor
  · exact (budget_limit_field_exact [toteBag] 50000 candAccepted candAccepted).1
      eval_candAccepted
  · exact (budget_limit_field_exact [toteBag] 50000 candBadLimit candBadLimit).2
      (by
        intro item h
        rw [show candBadLimit.products = [itemA] from rfl, List.mem_singleton] at h
        subst h
        exact ⟨toteBag, rfl, rfl,
          by norm_num [itemA, toteBag, jsAbs, expectedCost, round2, jsRound]⟩)
      (by
        rw [eval_computedAllocated_itemA candBadLimit rfl]
        norm_num [candBadLimit, jsAbs, allocatedTolerance, jsMax])
      (by decide)

theorem parseJsonValue_backtick (fuel : ℕ) (l : List Char) :
    parseJsonValue fuel ('\x60' :: l) = none := by
  cases fuel with
  | zero => rfl
  | succ fuel =>
    simp [parseJsonValue, isDigitChar]

theorem skipWs_cons_of_not_ws (c : Char) (l : List Char) (h : isJsonWs c = false) :
    skipWs (c :: l) = c :: l := by
  unfold skipWs
  rw [h]
  rfl

theorem mdFence_data (s : String) :
    (mdFence s).data =
      '\x60' :: ('\x60' :: '\x60' :: 'j' :: 's' :: 'o' :: 'n' :: '\n' ::
        (s.data ++ "\n```".data)) := by
  show (("```json\n" ++ s) ++ "\n```").data = _
  show ("```json\n".data ++ s.data) ++ "\n```".data = _
  rw [List.append_assoc]
  rfl

theorem jsonValid_mdFence (s : String) : jsonValid (mdFence s) = false := by
  unfold jsonValid
  rw [mdFence_data s, skipWs_cons_of_not_ws _ _ (by decide), parseJsonValue_backtick]

set_option maxRecDepth 2000 in
/-- C5: step 6 applies exactly one strict JSON parse with no leniency —
in particular, any response whose body is wrapped in markdown code
fences is rejected as invalid JSON (there is no fence stripping and no
recovery), while a well-formed JSON document is accepted. -/
theorem strict_json_parse_no_leniency :
    (∀ s : String, strictJsonParseStep (mdFence s) =
      .error "AI response is not valid JSON") ∧
    strictJsonParseStep jsonExample = .ok () := by
  constructor
  · intro s
    unfold strictJsonParseStep
    rw [jsonValid_mdFence]
    rfl
  · unfold strictJsonParseStep
    rw [show jsonValid jsonExample = true from by decide]
    rfl

/-- C7: the provider-call error classifier marks an error retryable
exactly when it is a network-level failure, an HTTP 5xx or an HTTP 429;
and a non-retryable error makes the attempt loop of `callGroq` fail on
the spot — at attempt 1, with attempts remaining, no further attempt is
made and the generic `Groq API error` is raised. -/
theorem isRetryable_iff_spec (e : AxiosError) :
    (isRetryable e = true ↔ specRetryable e) ∧
    (∀ (maxR : ℕ) (rdm rlm : ℤ) (outcomes : ℕ → GroqOutcome) (msg : String)
      (p : Option ℤ) (fuel : ℕ),
      outcomes 1 = .httpError e msg p → isRetryable e = false →
      callGroqModel maxR rdm rlm outcomes 1 (fuel + 1) =
        (.error (.generic ("Groq API error: " ++ msg)), 1)) := by
  constructor
  · unfold isRetryable specRetryable specNetworkLevelFailure
    cases hs : e.status with
    | some s => simp [hs]
    | none =>
      cases hc : e.code with
      | none => simp [hc]
      | some c => simp [hc, List.elem_iff]
  · intro maxR rdm rlm outcomes msg p fuel ho hret
    have h429 : ¬ (e.status = some 429) := by
      intro hs
      unfold isRetryable at hret
      rw [hs] at hret
      simp at hret
    simp only [callGroqModel, ho]
    rw [if_neg h429, if_neg (by simp [hret])]

theorem isRetryable_iff_spec_witness :
    callGroqModel 3 1000 8000 badRequestOutcomes 1 3 =
      (.error (.generic ("Groq API error: " ++ "Bad Request")), 1) :=
  (isRetryable_iff_spec badRequestError).2 3 1000 8000 badRequestOutcomes
    "Bad Request" none 2 rfl rfl

/-- C8: the 429 handler sets the shared cooldown watermark to the
maximum of its current value and `now + delay`, so the watermark never
shrinks — neither at one update nor across any interleaved sequence of
rate-limit events — every attempt begins no earlier than the watermark
it observes, and after a 429 carrying a 5-second retry hint every
attempt consulting the watermark starts at least 5 seconds after the
hit, whatever the configured delays. -/
theorem cooldown_watermark_monotone :
    (∀ w now d : ℤ, updateCooldown w now d = max w (now + d)) ∧
    (∀ w now d : ℤ, w ≤ updateCooldown w now d) ∧
    (∀ (w : ℤ) (evs : List CooldownEvent), w ≤ runCooldown w evs) ∧
    (∀ w now : ℤ, w ≤ cooldownWaitedStart w now) ∧
    (∀ (w now : ℤ) (rdm rlm : ℤ) (attempt : ℕ) (now' : ℤ),
      now + 5000 ≤ cooldownWaitedStart
        (updateCooldown w now (delayMsFor (some 5000) rdm rlm attempt)) now') := by
  refine ⟨fun w now d => rfl, fun w now d => le_max_left w (now + d), ?_, 
    fun w now => le_max_right now w, ?_⟩
  · intro w evs
    induction evs generalizing w with
    | nil => exact le_refl w
    | cons ev evs ih =>
      cases ev with
      | rateLimitHit now d =>
        exact le_trans (le_max_left w (now + d)) (ih (updateCooldown w now d))
  · intro w now rdm rlm attempt now'
    have hd : (5500 : ℤ) ≤ delayMsFor (some 5000) rdm rlm attempt := by
      unfold delayMsFor
      have : (5000 : ℤ) ≤ max ((some (5000:ℤ)).getD (rdm * (attempt : ℤ))) rlm := by
        simp [Option.getD]
      omega
    calc now + 5000 ≤ now + delayMsFor (some 5000) rdm rlm attempt := by omega
      _ ≤ max w (now + delayMsFor (some 5000) rdm rlm attempt) := le_max_right _ _
      _ = updateCooldown w now (delayMsFor (some 5000) rdm rlm attempt) := rfl
      _ ≤ cooldownWaitedStart (updateCooldown w now (delayMsFor (some 5000) rdm rlm attempt)) now' :=
        le_max_right _ _

theorem impactTotals_eq_of_resolvable (catalog : List Product) (items : List AIItem)
    (h : ∀ item ∈ items, (findProduct catalog item.product_id).isSome = true) :
    impactTotals catalog items =
      .ok ((items.map (plasticOf catalog)).sum, (items.map (carbonOf catalog)).sum) := by
  induction items with
  | nil => simp [impactTotals]
  | cons item rest ih =>
    obtain ⟨p, hp⟩ : ∃ p, findProduct catalog item.product_id = some p := by
      cases hf : findProduct catalog item.product_id with
      | none =>
        have := h item (List.mem_cons_self item rest)
        rw [hf] at this
        exact absurd this (by simp)
      | some p => exact ⟨p, rfl⟩
    have hr := ih (fun z hz => h z (List.mem_cons_of_mem item hz))
    simp only [impactTotals, hp, hr, List.map_cons, List.sum_cons]
    rw [plasticOf, hp, carbonOf, hp]

theorem impactTotals_error_of_unresolvable (catalog : List Product)
    (items : List AIItem)
    (h : ∃ item ∈ items, findProduct catalog item.product_id = none) :
    ∃ msg, impactTotals catalog items = .error msg := by
  induction items with
  | nil => obtain ⟨x, hx, _⟩ := h; exact absurd hx (by simp)
  | cons item rest ih =>
    cases hf : findProduct catalog item.product_id with
    | none =>
      exact ⟨"Impact computation failed: product " ++ item.product_id ++ " not found",
        by simp only [impactTotals, hf]⟩
    | some p =>
      obtain ⟨x, hx, hxf⟩ := h
      rcases List.mem_cons.mp hx with rfl | hmem
      · rw [hf] at hxf; exact absurd hxf (by simp)
      · obtain ⟨msg, hmsg⟩ := ih ⟨x, hmem, hxf⟩
        exact ⟨msg, by simp only [impactTotals, hf, hmsg]⟩

/-- C9: on line items whose identifiers all resolve, `computeImpact`
returns exactly the two-decimal roundings of
`Σ (quantity × canonical per-unit metric)`; it fails whenever some
accepted identifier cannot be resolved; and its result is invariant
under any reordering of the accepted line items. -/
theorem computeImpact_sums_and_perm (catalog : List Product) (items : List AIItem) :
    ((∀ item ∈ items, (findProduct catalog item.product_id).isSome = true) →
      computeImpact catalog items =
        .ok ⟨round2 ((items.map (plasticOf catalog)).sum),
             round2 ((items.map (carbonOf catalog)).sum)⟩) ∧
    ((∃ item ∈ items, findProduct catalog item.product_id = none) →
      ∃ msg, computeImpact catalog items = .error msg) ∧
    (∀ items' : List AIItem, items.Perm items' →
      (∀ item ∈ items, (findProduct catalog item.product_id).isSome = true) →
      computeImpact catalog items = computeImpact catalog items') := by
  refine ⟨?_, ?_, ?_⟩
  · intro h
    unfold computeImpact
    rw [impactTotals_eq_of_resolvable catalog items h]
  · intro h
    obtain ⟨msg, hmsg⟩ := impactTotals_error_of_unresolvable catalog items h
    exact ⟨msg, by unfold computeImpact; rw [hmsg]⟩
  · intro items' hperm h
    have h' : ∀ item ∈ items', (findProduct catalog item.product_id).isSome = true :=
      fun z hz => h z (hperm.mem_iff.mpr hz)
    unfold computeImpact
    rw [impactTotals_eq_of_resolvable catalog items h,
      impactTotals_eq_of_resolvable catalog items' h',
      List.Perm.sum_eq (hperm.map (plasticOf catalog)),
      List.Perm.sum_eq (hperm.map (carbonOf catalog))]

theorem computeImpact_sums_and_perm_witness :
    computeImpact impactCatalog impactItems =
      .ok ⟨round2 ((impactItems.map (plasticOf impactCatalog)).sum),
           round2 ((impactItems.map (carbonOf impactCatalog)).sum)⟩ ∧
    computeImpact impactCatalog impactItems = computeImpact impactCatalog impactItemsRev := by
  constructor
  · exact (computeImpact_sums_and_perm impactCatalog impactItems).1 (by decide)
  · exact (computeImpact_sums_and_perm impactCatalog impactItems).2.2 impactItemsRev
      (by decide) (by decide)

theorem loopFrom_provider_fail (env : PipelineEnv) (base : String) (budget : ℚ)
    (fuel attempt : ℕ) (prompt : String) (trace : List Write) (msg : String)
    (hp : env.provider attempt = .fail msg) :
    loopFrom env base budget (fuel + 1) attempt prompt trace =
      (trace, .error (.system msg)) := by
  simp only [loopFrom, hp]

theorem loopFrom_log_fail (env : PipelineEnv) (base : String) (budget : ℚ)
    (fuel attempt : ℕ) (prompt : String) (trace : List Write) (raw lmsg : String)
    (hp : env.provider attempt = .ok raw) (hl : env.logFail attempt = some lmsg) :
    loopFrom env base budget (fuel + 1) attempt prompt trace =
      (trace, .error (.system (loggingFailureMsg lmsg))) := by
  simp only [loopFrom, hp, hl]

theorem loopFrom_impact_fail (env : PipelineEnv) (base : String) (budget : ℚ)
    (fuel attempt : ℕ) (prompt : String) (trace : List Write) (raw : String)
    (d : AIData) (m : String)
    (hp : env.provider attempt = .ok raw) (hl : env.logFail attempt = none)
    (hv : env.verify raw = .ok d) (hi : env.impact d.products = .error m) :
    loopFrom env base budget (fuel + 1) attempt prompt trace =
      (trace ++ [.log prompt raw], .error (.system m)) := by
  simp only [loopFrom, hp, hl, hv, hi]

theorem loopFrom_persist_fail (env : PipelineEnv) (base : String) (budget : ℚ)
    (fuel attempt : ℕ) (prompt : String) (trace : List Write) (raw : String)
    (d : AIData) (imp : ImpactTotals) (pmsg : String)
    (hp : env.provider attempt = .ok raw) (hl : env.logFail attempt = none)
    (hv : env.verify raw = .ok d) (hi : env.impact d.products = .ok imp)
    (hpk : env.persistFail attempt = some pmsg) :
    loopFrom env base budget (fuel + 1) attempt prompt trace =
      (trace ++ [.log prompt raw], .error (.system pmsg)) := by
  simp only [loopFrom, hp, hl, hv, hi, hpk]

theorem loopFrom_accept (env : PipelineEnv) (base : String) (budget : ℚ)
    (fuel attempt : ℕ) (prompt : String) (trace : List Write) (raw : String)
    (d : AIData) (imp : ImpactTotals)
    (hp : env.provider attempt = .ok raw) (hl : env.logFail attempt = none)
    (hv : env.verify raw = .ok d) (hi : env.impact d.products = .ok imp)
    (hpk : env.persistFail attempt = none) :
    loopFrom env base budget (fuel + 1) attempt prompt trace =
      (trace ++ [.log prompt raw, .proposal (assembleSuccess budget d imp)],
       .ok (assembleSuccess budget d imp)) := by
  simp only [loopFrom, hp, hl, hv, hi, hpk, List.append_assoc, List.cons_append,
    List.nil_append]

theorem loopFrom_reject_continue (env : PipelineEnv) (base : String) (budget : ℚ)
    (fuel attempt : ℕ) (prompt : String) (trace : List Write) (raw reason : String)
    (hp : env.provider attempt = .ok raw) (hl : env.logFail attempt = none)
    (hv : env.verify raw = .error reason) (hf : 0 < fuel) :
    loopFrom env base budget (fuel + 1) attempt prompt trace =
      loopFrom env base budget fuel (attempt + 1)
        (base ++ rejectionFeedback reason budget) (trace ++ [.log prompt raw]) := by
  simp only [loopFrom, hp, hl, hv, if_pos hf]

theorem loopFrom_reject_last (env : PipelineEnv) (base : String) (budget : ℚ)
    (attempt : ℕ) (prompt : String) (trace : List Write) (raw reason : String)
    (hp : env.provider attempt = .ok raw) (hl : env.logFail attempt = none)
    (hv : env.verify raw = .error reason) :
    loopFrom env base budget 1 attempt prompt trace =
      (trace ++ [.log prompt raw], .error (.validation reason)) := by
  simp only [loopFrom, hp, hl, hv]
  rw [if_neg (lt_irrefl 0)]

theorem promptAfter_step (base : String) (budget : ℚ) (r : ℕ → String)
    (prompt : String) (attempt j : ℕ) :
    promptAfter base budget r (base ++ rejectionFeedback (r attempt) budget)
      (attempt + 1) j = promptAfter base budget r prompt attempt (j + 1) := by
  cases j with
  | zero => simp [promptAfter]
  | succ jj =>
    have h : attempt + 1 + (jj + 1) - 1 = attempt + (jj + 1 + 1) - 1 := by omega
    simp only [promptAfter, Nat.succ_ne_zero, if_false, h]

theorem loopFrom_reject_run (env : PipelineEnv) (base : String) (budget : ℚ)
    (raw r : ℕ → String) :
    ∀ (j fuel attempt : ℕ) (prompt : String) (trace : List Write),
      j < fuel →
      (∀ a, attempt ≤ a → a < attempt + j → cleanReject env raw r a) →
      loopFrom env base budget fuel attempt prompt trace =
        loopFrom env base budget (fuel - j) (attempt + j)
          (promptAfter base budget r prompt attempt j)
          (trace ++ rejectLogs base budget raw r prompt attempt j) := by
  intro j
  induction j with
  | zero =>
    intro fuel attempt prompt trace hj hcr
    simp [promptAfter, rejectLogs]
  | succ j ih =>
    intro fuel attempt prompt trace hj hcr
    obtain ⟨f, rfl⟩ : ∃ f, fuel = f + 1 := ⟨fuel - 1, by omega⟩
    obtain ⟨hp, hl, hv⟩ := hcr attempt (le_refl attempt) (by omega)
    rw [loopFrom_reject_continue env base budget f attempt prompt trace
      (raw attempt) (r attempt) hp hl hv (by omega)]
    have hih := ih f (attempt + 1) (base ++ rejectionFeedback (r attempt) budget)
      (trace ++ [Write.log prompt (raw attempt)]) (by omega)
      (fun a ha1 ha2 => hcr a (by omega) (by omega))
    rw [hih]
    have e1 : f + 1 - (j + 1) = f - j := by omega
    have e2 : attempt + 1 + j = attempt + (j + 1) := by omega
    have e4 : trace ++ [Write.log prompt (raw attempt)] ++
        rejectLogs base budget raw r (base ++ rejectionFeedback (r attempt) budget)
          (attempt + 1) j =
        trace ++ rejectLogs base budget raw r prompt attempt (j + 1) := by
      simp only [rejectLogs, List.append_assoc, List.cons_append, List.nil_append]
    rw [e1, e2, promptAfter_step base budget r prompt attempt j, e4]

theorem promptAfter_one (base : String) (budget : ℚ) (r : ℕ → String) (j : ℕ) :
    promptAfter base budget r base 1 j = promptAt base budget r (j + 1) := by
  cases j with
  | zero => simp [promptAfter, promptAt]
  | succ jj =>
    have h : 1 + (jj + 1) - 1 = jj + 1 := by omega
    simp only [promptAfter, promptAt, Nat.succ_ne_zero, if_false, h]

/-- C2: the retry controller drives at most `MAX_VALIDATION_RETRIES = 5`
rounds and returns the result of the first round whose candidate passes
verification; after a rejection with attempts remaining, the next
round's user prompt is the base prompt with the previous rejection
reason and the explicit budget reminder appended; when all five rounds
are rejected the pipeline fails with the last rejection reason; and a
provider failure or a logging failure at any round propagates
immediately as a system error, never retried by this loop. -/
theorem retry_controller_behavior (env : PipelineEnv) (base : String) (budget : ℚ)
    (raw r : ℕ → String) :
    ((∀ a, 1 ≤ a → a ≤ 5 → cleanReject env raw r a) →
      (generateProposalPipeline env base budget).2 = .error (.validation (r 5))) ∧
    (∀ k, 1 ≤ k → k ≤ 5 →
      (∀ a, 1 ≤ a → a < k → cleanReject env raw r a) →
      ∀ d imp, env.provider k = .ok (raw k) → env.logFail k = none →
        env.verify (raw k) = .ok d → env.impact d.products = .ok imp →
        env.persistFail k = none →
        generateProposalPipeline env base budget =
          (rejectLogs base budget raw r base 1 (k - 1) ++
            [.log (promptAt base budget r k) (raw k),
             .proposal (assembleSuccess budget d imp)],
           .ok (assembleSuccess budget d imp))) ∧
    (∀ a, 1 ≤ a →
      promptAt base budget r (a + 1) = base ++ (fbPre ++ r a ++ fbTail budget)) ∧
    (∀ k, 1 ≤ k → k ≤ 5 →
      (∀ a, 1 ≤ a → a < k → cleanReject env raw r a) →
      (∀ msg, env.provider k = .fail msg →
        (generateProposalPipeline env base budget).2 = .error (.system msg)) ∧
      (∀ rawk lmsg, env.provider k = .ok rawk → env.logFail k = some lmsg →
        (generateProposalPipeline env base budget).2 =
          .error (.system (loggingFailureMsg lmsg)))) := by
  refine ⟨?_, ?_, ?_, ?_⟩
  · intro hall
    show (loopFrom env base budget 5 1 base []).2 = _
    rw [loopFrom_reject_run env base budget raw r 4 5 1 base [] (by omega)
      (fun a h1 h2 => hall a h1 (by omega))]
    obtain ⟨hp, hl, hv⟩ := hall 5 (by omega) (le_refl 5)
    rw [show (5:ℕ) - 4 = 1 from rfl, show (1:ℕ) + 4 = 5 from rfl]
    rw [loopFrom_reject_last env base budget 5 _ _ (raw 5) (r 5) hp hl hv]
  · intro k hk1 hk5 hprefix d imp hp hl hv hi hpk
    show loopFrom env base budget 5 1 base [] = _
    rw [loopFrom_reject_run env base budget raw r (k - 1) 5 1 base [] (by omega)
      (fun a h1 h2 => hprefix a h1 (by omega))]
    obtain ⟨f, hf⟩ : ∃ f, 5 - (k - 1) = f + 1 := ⟨5 - k, by omega⟩
    rw [hf, show 1 + (k - 1) = k from by omega,
      promptAfter_one base budget r (k - 1), show k - 1 + 1 = k from by omega]
    rw [loopFrom_accept env base budget f k _ _ (raw k) d imp hp hl hv hi hpk]
    rw [List.nil_append]
  · intro a ha
    obtain ⟨aa, rfl⟩ : ∃ aa, a = aa + 1 := ⟨a - 1, by omega⟩
    rfl
  · intro k hk1 hk5 hprefix
    have hpre := loopFrom_reject_run env base budget raw r (k - 1) 5 1 base []
      (by omega) (fun a h1 h2 => hprefix a h1 (by omega))
    obtain ⟨f, hf⟩ : ∃ f, 5 - (k - 1) = f + 1 := ⟨5 - k, by omega⟩
    constructor
    · intro msg hpm
      show (loopFrom env base budget 5 1 base []).2 = _
      rw [hpre, hf, show 1 + (k - 1) = k from by omega]
      rw [loopFrom_provider_fail env base budget f k _ _ msg hpm]
    · intro rawk lmsg hpo hlf
      show (loopFrom env base budget 5 1 base []).2 = _
      rw [hpre, hf, show 1 + (k - 1) = k from by omega]
      rw [loopFrom_log_fail env base budget f k _ _ rawk lmsg hpo hlf]

theorem demoEnv_impact : demoEnv.impact candAccepted.products = .ok ⟨6, 10⟩ := by
  have hpl : plasticOf [toteBag] itemA = 6 := by
    unfold plasticOf
    rw [show findProduct [toteBag] itemA.product_id = some toteBag from rfl]
    norm_num [toteBag, itemA]
  have hca : carbonOf [toteBag] itemA = 10 := by
    unfold carbonOf
    rw [show findProduct [toteBag] itemA.product_id = some toteBag from rfl]
    norm_num [toteBag, itemA]
  show computeImpact [toteBag] candAccepted.products = .ok ⟨6, 10⟩
  rw [show candAccepted.products = [itemA] from rfl]
  unfold computeImpact
  rw [impactTotals_eq_of_resolvable [toteBag] [itemA] (by decide)]
  simp only [List.map_cons, List.map_nil, List.sum_cons, List.sum_nil, hpl, hca]
  norm_num [round2, jsRound]

theorem retry_controller_behavior_witness :
    generateProposalPipeline demoEnv demoPrompt 50000 =
      (rejectLogs demoPrompt 50000 demoRaw demoReason demoPrompt 1 2 ++
        [.log (promptAt demoPrompt 50000 demoReason 3) (demoRaw 3),
         .proposal (assembleSuccess 50000 candAccepted ⟨6, 10⟩)],
       .ok (assembleSuccess 50000 candAccepted ⟨6, 10⟩)) := by
  have h := (retry_controller_behavior demoEnv demoPrompt 50000 demoRaw demoReason).2.1
    3 (by omega) (by omega)
    (by
      intro a h1 h2
      interval_cases a
      · exact ⟨rfl, rfl, rfl⟩
      · exact ⟨rfl, rfl, rfl⟩)
    candAccepted ⟨6, 10⟩ rfl rfl rfl demoEnv_impact rfl
  exact h

theorem loopFrom_write_spec (env : PipelineEnv) (base : String) (budget : ℚ) :
    ∀ (fuel attempt : ℕ) (prompt : String) (trace : List Write),
      ∃ delta res,
        loopFrom env base budget fuel attempt prompt trace = (trace ++ delta, res) ∧
        (((∀ w ∈ delta, isProposalWrite w = false) ∧ ∃ e, res = .error e) ∨
         (∃ logs p, (∀ w ∈ logs, isProposalWrite w = false) ∧
            delta = logs ++ [.proposal p] ∧ res = .ok p ∧
            ∃ rawc d imp, env.verify rawc = .ok d ∧ env.impact d.products = .ok imp ∧
              p = assembleSuccess budget d imp)) := by
  intro fuel
  induction fuel with
  | zero =>
    intro attempt prompt trace
    exact ⟨[], .error (.validation ""), by simp [loopFrom], Or.inl ⟨by simp, ⟨_, rfl⟩⟩⟩
  | succ fuel ih =>
    intro attempt prompt trace
    cases hpr : env.provider attempt with
    | fail msg =>
      refine ⟨[], .error (.system msg), ?_, Or.inl ⟨by simp, ⟨_, rfl⟩⟩⟩
      rw [loopFrom_provider_fail env base budget fuel attempt prompt trace msg hpr]
      simp
    | ok raw =>
      cases hlf : env.logFail attempt with
      | some lmsg =>
        refine ⟨[], .error (.system (loggingFailureMsg lmsg)), ?_,
          Or.inl ⟨by simp, ⟨_, rfl⟩⟩⟩
        rw [loopFrom_log_fail env base budget fuel attempt prompt trace raw lmsg hpr hlf]
        simp
      | none =>
        cases hv : env.verify raw with
        | ok d =>
          cases hi : env.impact d.products with
          | error m =>
            refine ⟨[.log prompt raw], .error (.system m), ?_,
              Or.inl ⟨by simp [isProposalWrite], ⟨_, rfl⟩⟩⟩
            rw [loopFrom_impact_fail env base budget fuel attempt prompt trace raw d m
              hpr hlf hv hi]
          | ok imp =>
            cases hpk : env.persistFail attempt with
            | some pmsg =>
              refine ⟨[.log prompt raw], .error (.system pmsg), ?_,
                Or.inl ⟨by simp [isProposalWrite], ⟨_, rfl⟩⟩⟩
              rw [loopFrom_persist_fail env base budget fuel attempt prompt trace raw d
                imp pmsg hpr hlf hv hi hpk]
            | none =>
              refine ⟨[.log prompt raw, .proposal (assembleSuccess budget d imp)],
                .ok (assembleSuccess budget d imp), ?_, ?_⟩
              · rw [loopFrom_accept env base budget fuel attempt prompt trace raw d imp
                  hpr hlf hv hi hpk]
              · refine Or.inr ⟨[.log prompt raw], assembleSuccess budget d imp, ?_,
                  by simp, rfl, raw, d, imp, hv, hi, rfl⟩
                intro w hw
                rw [List.mem_singleton] at hw
                subst hw
                rfl
        | error reason =>
          by_cases hf : 0 < fuel
          · obtain ⟨delta, res, heq, hcase⟩ :=
              ih (attempt + 1) (base ++ rejectionFeedback reason budget)
                (trace ++ [.log prompt raw])
            refine ⟨.log prompt raw :: delta, res, ?_, ?_⟩
            · rw [loopFrom_reject_continue env base budget fuel attempt prompt trace raw
                reason hpr hlf hv hf, heq]
              simp
            · rcases hcase with ⟨hall, e, he⟩ | ⟨logs, p, hlogs, hdelta, hres, hwit⟩
              · refine Or.inl ⟨?_, e, he⟩
                intro w hw
                rcases List.mem_cons.mp hw with rfl | hm
                · rfl
                · exact hall w hm
              · refine Or.inr ⟨.log prompt raw :: logs, p, ?_, by rw [hdelta]; simp,
                  hres, hwit⟩
                intro w hw
                rcases List.mem_cons.mp hw with rfl | hm
                · rfl
                · exact hlogs w hm
          · have hf0 : fuel = 0 := by omega
            subst hf0
            refine ⟨[.log prompt raw], .error (.validation reason), ?_,
              Or.inl ⟨by simp [isProposalWrite], ⟨_, rfl⟩⟩⟩
            rw [loopFrom_reject_last env base budget attempt prompt trace raw reason
              hpr hlf hv]

/-- C10: one pipeline run creates at most one proposal document, and
exactly one only when the run succeeds — i.e. only after a candidate
passed verification and the impact computation and persistence
succeeded; on any failure (verification exhaustion, provider failure,
logging failure, impact failure, persistence failure) no proposal
document is created and every store write is an interaction-log entry. -/
theorem persistence_only_on_success (env : PipelineEnv) (base : String) (budget : ℚ) :
    proposalCount (generateProposalPipeline env base budget).1 ≤ 1 ∧
    (∀ e, (generateProposalPipeline env base budget).2 = .error e →
      (∀ w ∈ (generateProposalPipeline env base budget).1, isProposalWrite w = false) ∧
      proposalCount (generateProposalPipeline env base budget).1 = 0) ∧
    (∀ p, (generateProposalPipeline env base budget).2 = .ok p →
      proposalCount (generateProposalPipeline env base budget).1 = 1 ∧
      ∃ rawc d imp, env.verify rawc = .ok d ∧ env.impact d.products = .ok imp ∧
        p = assembleSuccess budget d imp) := by
  obtain ⟨delta, res, heq, hcase⟩ := loopFrom_write_spec env base budget 5 1 base []
  have h1 : (generateProposalPipeline env base budget).1 = delta := by
    show (loopFrom env base budget 5 1 base []).1 = delta
    rw [heq]
    simp
  have h2 : (generateProposalPipeline env base budget).2 = res := by
    show (loopFrom env base budget 5 1 base []).2 = res
    rw [heq]
  have hcount0 : ∀ (l : List Write), (∀ w ∈ l, isProposalWrite w = false) →
      proposalCount l = 0 := by
    intro l hl
    unfold proposalCount
    rw [List.filter_eq_nil_iff.mpr (fun a ha => by rw [hl a ha]; simp)]
    rfl
  rcases hcase with ⟨hall, e, he⟩ | ⟨logs, p, hlogs, hdelta, hres, hwit⟩
  · refine ⟨?_, ?_, ?_⟩
    · rw [h1, hcount0 delta hall]
      omega
    · intro e' _
      exact ⟨by rw [h1]; exact hall, by rw [h1]; exact hcount0 delta hall⟩
    · intro p hp
      rw [h2, he] at hp
      exact absurd hp (by simp)
  · have hcnt : proposalCount delta = 1 := by
      rw [hdelta]
      unfold proposalCount
      rw [List.filter_append, List.filter_eq_nil_iff.mpr (fun a ha => by rw [hlogs a ha]; simp)]
      rfl
    refine ⟨?_, ?_, ?_⟩
    · rw [h1, hcnt]
    · intro e' he'
      rw [h2, hres] at he'
      exact absurd he' (by simp)
    · intro p' hp'
      rw [h2, hres] at hp'
      injection hp' with hp'
      subst hp'
      exact ⟨by rw [h1]; exact hcnt, hwit⟩

theorem demoEnv_pipeline_snd :
    (generateProposalPipeline demoEnv demoPrompt 50000).2 =
      .ok (assembleSuccess 50000 candAccepted ⟨6, 10⟩) := by
  show (loopFrom demoEnv demoPrompt 50000 5 1 demoPrompt []).2 = _
  rw [loopFrom_reject_continue demoEnv demoPrompt 50000 4 1 demoPrompt []
    (demoRaw 1) (demoReason 1) rfl rfl rfl (by omega)]
  rw [loopFrom_reject_continue demoEnv demoPrompt 50000 3 2 _ _
    (demoRaw 2) (demoReason 2) rfl rfl rfl (by omega)]
  rw [loopFrom_accept demoEnv demoPrompt 50000 2 3 _ _
    (demoRaw 3) candAccepted ⟨6, 10⟩ rfl rfl rfl demoEnv_impact rfl]

theorem persistence_only_on_success_witness :
    proposalCount (generateProposalPipeline demoEnv demoPrompt 50000).1 = 1 :=
  ((persistence_only_on_success demoEnv demoPrompt 50000).2.2
    (assembleSuccess 50000 candAccepted ⟨6, 10⟩) demoEnv_pipeline_snd).1
